import Mathlib

/-!
Shallow embedding of the pysatModels instrument plug-ins
(`pysatModels/models/gemini3d.py` and `pysatModels/models/sami2py_sami2.py`).

Modelling conventions:
* Python dicts become association lists (`List (String × α)`); iteration
  order is the dict insertion order, lookup is `lookupA`.
* Machine data values (the contents of the model files) are rationals;
  Python `int(x)` truncation toward zero is `truncQ`.
* Naive Python datetimes are identified with their position on the civil
  timeline in seconds (`mkDatetime`, via the standard civil-from-days
  computation); `datetime + timedelta(seconds=s)` is integer addition.
* `str.format` is `pyFormat`: the template is split into literal and
  replacement-field segments; each field is looked up by its full field
  name in the keyword arguments, raising `KeyError` (modelled as
  `Except.error name`) when the name is absent, exactly as CPython does.
* Effectful functions return a `DownloadEffects` record listing the HTTP
  GETs performed, files written, warnings emitted, and the exception
  raised (or `none` for a normal return); HTTP itself is an oracle
  `String → HttpResponse`.
* Fallible loads return `Option`, `none` standing for a propagated
  exception.
-/

/-- Association-list lookup, mirroring Python `d[key]` on a dict whose
insertion order is the list order. -/
def lookupA {α : Type} : List (String × α) → String → Option α
  | [], _ => none
  | (k, v) :: rest, key => if key = k then some v else lookupA rest key

/-- An element of `date_array`: a naive Python `datetime` argument, of which
the download routines read only `year`, `month` and `day`. -/
structure PyDate where
  year : Int
  month : Int
  day : Int
  hour : Int
  minute : Int
  second : Int
deriving DecidableEq

/-- The observable part of a `requests.get` response. -/
structure HttpResponse where
  status_code : Int
  content : List Nat
deriving DecidableEq

/-- The Python exceptions the embedded code can raise. -/
inductive PyError where
  | indexError : PyError
  | keyError : String → PyError
  | typeError : PyError
deriving DecidableEq

/-- Trace of the externally visible effects of one `download` call. -/
structure DownloadEffects where
  gets : List String
  writes : List (String × List Nat)
  warnings : List String
  raised : Option PyError
deriving DecidableEq

/-- Days between a civil date and 1970-01-01 (standard civil-from-days
computation, as used by the Python `datetime` module's timeline). -/
def daysFromCivil (y m d : Int) : Int :=
  let y2 := if m ≤ 2 then y - 1 else y
  let era := (if 0 ≤ y2 then y2 else y2 - 399) / 400
  let yoe := y2 - era * 400
  let mp := (m + 9) % 12
  let doy := (153 * mp + 2) / 5 + d - 1
  let doe := yoe * 365 + yoe / 4 - yoe / 100 + doy
  era * 146097 + doe - 719468

/-- A naive Python datetime, identified with its timeline position in
seconds since 1970-01-01T00:00:00. -/
def mkDatetime (y m d h mi s : Int) : Int :=
  daysFromCivil y m d * 86400 + h * 3600 + mi * 60 + s

/-- Python `int()` applied to a (real-valued) number: truncation toward
zero. -/
def truncQ (q : ℚ) : ℤ := if 0 ≤ q then ⌊q⌋ else ⌈q⌉

/-- Left brace character, written via its code point. -/
def lbrace : String := String.singleton (Char.ofNat 123)

/-- Right brace character, written via its code point. -/
def rbrace : String := String.singleton (Char.ofNat 125)

/-- A replacement field of a format template, brace-delimited. -/
def fmtField (s : String) : String := lbrace ++ s ++ rbrace

/-- One segment of a parsed format template: a literal character or a
replacement field carrying its field name and format spec. -/
inductive Seg where
  | lit : Char → Seg
  | field : String → String → Seg
deriving DecidableEq

/-- Split the contents of a brace-delimited field at the first colon into
field name and format spec, as `str.format` does. -/
def mkFieldSeg (cs : List Char) : Seg :=
  Seg.field (String.mk (cs.takeWhile (fun c => c != Char.ofNat 58)))
    (String.mk ((cs.dropWhile (fun c => c != Char.ofNat 58)).drop 1))

/-- Fuel-driven scan of a format template into segments.  Each recursive
call consumes at least one character, so fuel `length + 1` suffices. -/
def parseSegsF : Nat → List Char → List Seg
  | 0, _ => []
  | _ + 1, [] => []
  | n + 1, c :: rest =>
    if c = Char.ofNat 123 then
      mkFieldSeg (rest.takeWhile (fun c2 => c2 != Char.ofNat 125))
        :: parseSegsF n ((rest.dropWhile (fun c2 => c2 != Char.ofNat 125)).drop 1)
    else
      Seg.lit c :: parseSegsF n rest

/-- Parse a format template into its segments. -/
def parseSegs (s : String) : List Seg := parseSegsF (s.toList.length + 1) s.toList

/-- Width of a zero-padding minimum-width format spec such as `04d`:
the decimal number between the leading `0` and the trailing `d`. -/
def specWidth (spec : String) : Nat :=
  ((spec.toList.drop 1).dropLast).foldl (fun acc c => acc * 10 + (c.toNat - 48)) 0

/-- Render an integer under a `0Nd` format spec (zero-pad to width `N`). -/
def padInt (spec : String) (v : Int) : String :=
  let w := specWidth spec
  let s := toString v
  if s.length < w then String.mk (List.replicate (w - s.length) '0') ++ s else s

/-- Render one template segment against keyword arguments; a field whose
name is not a keyword raises `KeyError` with that name. -/
def renderSeg (kwargs : List (String × Int)) : Seg → Except String String
  | Seg.lit c => Except.ok (String.singleton c)
  | Seg.field nm spec =>
    match lookupA kwargs nm with
    | none => Except.error nm
    | some v => Except.ok (padInt spec v)

/-- Python `template.format(**kwargs)` for integer keyword arguments:
fields are rendered left to right and the first missing field name raises
`KeyError`. -/
def pyFormat (template : String) (kwargs : List (String × Int)) : Except String String :=
  ((parseSegs template).mapM (renderSeg kwargs)).map String.join

/-- Python `s.strip(c)` for a single strip character. -/
def pyStrip (c : Char) (s : String) : String :=
  String.mk (((s.toList.dropWhile (fun x => x = c)).reverse.dropWhile (fun x => x = c)).reverse)

/-- Python `os.path.join(dir, fn)` for the shapes arising here (no
absolute second component). -/
def osJoin (dir fn : String) : String :=
  if dir = "" then fn
  else if dir.toList.getLast? = some '/' then dir ++ fn
  else dir ++ "/" ++ fn

/-- A named data variable of a loaded file: its (flattened) values and
its attribute mapping. -/
structure Var where
  values : List ℚ
  attrs : List (String × String)
deriving DecidableEq

/-- An xarray-style labelled dataset: named variables plus global
attributes. -/
structure Dataset where
  vars : List (String × Var)
  attrs : List (String × String)
deriving DecidableEq

/-- Dict-style variable assignment `data[key] = v`: replace in place when
the key exists, otherwise append. -/
def setVar (d : Dataset) (key : String) (v : Var) : Dataset :=
  if (lookupA d.vars key).isSome then
    { d with vars := d.vars.map (fun p => if p.1 = key then (key, v) else p) }
  else
    { d with vars := d.vars ++ [(key, v)] }

/-- The module-level registries of one instrument module. -/
structure Registries where
  tags : List (String × String)
  ids : List (String × List String)
  supported_tags : List (String × List (String × String))
deriving DecidableEq

/-- The mutable fields of the host `pysat.Instrument` object touched by
`init`. -/
structure Instrument where
  acknowledgements : String
  references : String
deriving DecidableEq

/-- Warning message emitted by both modules for non-test download tags. -/
def nonTestWarning : String := "Downloads currently only supported for test files."

/-- Effects of the warn-and-return branch of `download`. -/
def warnedEffects : DownloadEffects := ⟨[], [], [nonTestWarning], none⟩

/-- Modelled from the spec: the filename-listing routine is pysat's
general `list_files` helper, external to this repository; each module
binds it to its own `supported_tags` registry by a left-applied closure.
Per the spec the registry is "used only to validate which filename
template applies", so the external routine is modelled as the read-only
selection of the filename template for `(inst_id, tag)`. -/
def listFilesCore (regs : Registries) (inst_id tag : String) :
    Registries × Option String :=
  (regs, (lookupA regs.supported_tags inst_id).bind (fun m => lookupA m tag))

namespace gemini3d

/-- Module attribute `platform` of `gemini3d.py`. -/
def platform : String := "pygemini"

/-- Module attribute `tags` of `gemini3d.py`. -/
def tags : List (String × String) :=
  [("", "pygemini output file"),
   ("test", "Standard output of pygemini for benchmarking")]

/-- Module attribute `inst_ids` of `gemini3d.py`. -/
def inst_ids : List (String × List String) := [("", ["", "test"])]

/-- Module-level filename template `fname` of `gemini3d.py` (a pysat
template, whose non-date fields are not valid `str.format` keywords). -/
def fname : String :=
  fmtField "year:04d" ++ fmtField "month:02d" ++ fmtField "day:02d" ++ "_"
    ++ fmtField "hour*3600 + minute*60 + second:05d" ++ "."
    ++ fmtField "microsecond:06d" ++ ".h5"

/-- Module attribute `supported_tags` of `gemini3d.py`. -/
def supported_tags : List (String × List (String × String)) :=
  [("", [("", fname), ("test", fname)])]

/-- The registries as fixed at module load time. -/
def initRegistries : Registries := ⟨tags, inst_ids, supported_tags⟩

/-- The metadata object returned by the external parser
`pysat.utils.load_netcdf4`: variable name to attribute mapping. -/
abbrev MetaMap := List (String × List (String × String))

/-- The fixed epoch `dt.datetime(2012, 2, 20, 5, 0, 0)` used by `load`. -/
def epoch : Int := mkDatetime 2012 2 20 5 0 0

/-- Body of `gemini3d.load` after the delegated parse: look up the
fractional-hour variable `ut` (a missing key propagates `KeyError`) and
assign `data["time"]` the list of `epoch + timedelta(seconds=int(v * 3600))`
values; the parser's metadata is returned untouched. -/
def loadParsed (pm : Dataset × MetaMap) : Option (Dataset × MetaMap) :=
  match lookupA pm.1.vars "ut" with
  | none => none
  | some ut =>
    some (setVar pm.1 "time"
      ⟨ut.values.map (fun v => ((epoch + truncQ (v * 3600) : ℤ) : ℚ)), []⟩, pm.2)

/-- Model of `gemini3d.load`: delegate the parse of `fnames` to the external
`pysat.utils.load_netcdf4` (the oracle `p`), then synthesize the time
axis. -/
def load (p : List String → Option (Dataset × MetaMap)) (fnames : List String) :
    Option (Dataset × MetaMap) :=
  (p fnames).bind loadParsed

/-- The `tag == "test"` branch of `gemini3d.download`, taking the fields
of `date_array[0]` that the branch reads. -/
def downloadTestBranch (regs : Registries) (http : String → HttpResponse)
    (y m d : Int) (tag inst_id : String) (data_path : Option String) :
    Registries × DownloadEffects :=
  let remote_url := "https://www.zenodo.org/record/"
  let remote_path := "4043048/files"
  let fnameZip := "test2dew_fang.zip?download=1"
  match lookupA regs.supported_tags inst_id with
  | none => (regs, ⟨[], [], [], some (PyError.keyError inst_id)⟩)
  | some inner =>
    match lookupA inner tag with
    | none => (regs, ⟨[], [], [], some (PyError.keyError tag)⟩)
    | some format_str =>
      match pyFormat format_str [("year", y), ("month", m), ("day", d)] with
      | Except.error k => (regs, ⟨[], [], [], some (PyError.keyError k)⟩)
      | Except.ok base =>
        match data_path with
        | none => (regs, ⟨[], [], [], some PyError.typeError⟩)
        | some dp =>
          let saved := osJoin dp base
          let remote := pyStrip '/' remote_url ++ "/" ++ pyStrip '/' remote_path
            ++ "/" ++ fnameZip
          let resp := http remote
          if resp.status_code ≠ 404 then
            (regs, ⟨[remote], [(saved, resp.content)], [], none⟩)
          else
            (regs, ⟨[remote], [], [], none⟩)

/-- Model of `gemini3d.download`, threading the module registries through
explicitly: on `tag == "test"` it reads `date_array[0]` (raising
`IndexError` when empty) and runs the test branch, otherwise it warns and
returns. -/
def downloadCore (regs : Registries) (http : String → HttpResponse)
    (date_array : List PyDate) (tag inst_id : String) (data_path : Option String) :
    Registries × DownloadEffects :=
  if tag = "test" then
    match date_array with
    | [] => (regs, ⟨[], [], [], some PyError.indexError⟩)
    | date :: _ =>
      downloadTestBranch regs http date.year date.month date.day tag inst_id data_path
  else
    (regs, warnedEffects)

/-- The `gemini3d.download` routine applied at the module's fixed registries. -/
def download (http : String → HttpResponse) (date_array : List PyDate)
    (tag inst_id : String) (data_path : Option String) : DownloadEffects :=
  (downloadCore initRegistries http date_array tag inst_id data_path).2

/-- Acknowledgements text set by `gemini3d.init`. -/
def acknowledgementsText : String :=
  "The Gemini3D model and PyGemini interface were developed by Matthew "
    ++ "Zettergren and Michael Hirsch under NSF CAREER and NASA HDEE "
    ++ "funding along with PI Joshua Semeter and Co-I Jeffrey Klenzing."

/-- Model of `gemini3d.init`: sets acknowledgement fields on the instrument. -/
def initCore (regs : Registries) (_self : Instrument) : Registries × Instrument :=
  (regs, { acknowledgements := acknowledgementsText, references := "" })

/-- Model of `gemini3d.clean`: logs only. -/
def cleanCore (regs : Registries) (self : Instrument) : Registries × Instrument :=
  (regs, self)

/-- The `gemini3d.load` routine with the registries threaded through (the function
body never references them). -/
def loadCore (regs : Registries) (p : List String → Option (Dataset × MetaMap))
    (fnames : List String) : Registries × Option (Dataset × MetaMap) :=
  (regs, load p fnames)

end gemini3d

namespace sami2py

/-- Module attribute `platform` of `sami2py_sami2.py`. -/
def platform : String := "sami2py"

/-- Module attribute `tags` of `sami2py_sami2.py`. -/
def tags : List (String × String) :=
  [("", "sami2py output file"),
   ("test", "Standard output of sami2py for benchmarking")]

/-- Module attribute `sat_ids` of `sami2py_sami2.py`. -/
def sat_ids : List (String × List String) := [("", [""])]

/-- Module-level filename template `fname` of `sami2py_sami2.py`. -/
def fname : String :=
  "sami2py_output_" ++ fmtField "year:04d" ++ "-" ++ fmtField "month:02d"
    ++ "-" ++ fmtField "day:02d" ++ ".nc"

/-- Module attribute `supported_tags` of `sami2py_sami2.py`. -/
def supported_tags : List (String × List (String × String)) :=
  [("", [("", fname), ("test", fname)])]

/-- The registries as fixed at module load time. -/
def initRegistries : Registries := ⟨tags, sat_ids, supported_tags⟩

/-- The `pysat.Meta` object as populated by `sami2py.load`: the object
attributes installed by `setattr` in call order, and the per-variable
metadata entries in insertion order. -/
structure Meta where
  objAttrs : List (String × String)
  varMeta : List (String × List (String × String))
deriving DecidableEq

/-- The `setattr(meta, attr[0], attr[1])` loop of `sami2py.load`: the
iteration runs over the KEYS of `data.attrs`, so each key contributes its
first character as attribute name and its second as value; a key shorter
than two characters raises `IndexError`. -/
def setattrPairs : List String → Option (List (String × String))
  | [] => some []
  | k :: rest =>
    match k.toList with
    | c0 :: c1 :: _ =>
      (setattrPairs rest).map (fun r => (String.singleton c0, String.singleton c1) :: r)
    | _ => none

/-- Model of the xarray rename of `ut` to `time` performed by
`sami2py.load`: it requires the old name to exist and the new name to be
fresh, and renames the variable in place. -/
def renameUtToTime (d : Dataset) : Option Dataset :=
  if (lookupA d.vars "ut").isSome && (lookupA d.vars "time").isNone then
    some { d with vars := d.vars.map (fun p => if p.1 = "ut" then ("time", p.2) else p) }
  else
    none

/-- Model of `sami2py.load`: open `fnames[0]` (an empty list raises `IndexError`,
the oracle `files` stands for `xr.open_dataset`), rename `ut` to `time`,
move the global attributes onto the `Meta` object character-wise (the
source iterates dict keys), clear them, and record each variable's
attribute mapping in the `Meta` object. -/
def load (files : String → Option Dataset) (fnames : List String) :
    Option (Dataset × Meta) :=
  match fnames with
  | [] => none
  | f :: _ =>
    match files f with
    | none => none
    | some data0 =>
      match renameUtToTime data0 with
      | none => none
      | some data1 =>
        match setattrPairs (data1.attrs.map Prod.fst) with
        | none => none
        | some oa =>
          some ({ data1 with attrs := [] },
            ⟨oa, data1.vars.map (fun p => (p.1, p.2.attrs))⟩)

/-- The `tag == 'test'` branch of `sami2py.download`, taking the fields
of `date_array[0]` that the branch reads. -/
def downloadTestBranch (regs : Registries) (http : String → HttpResponse)
    (y m d : Int) (tag sat_id : String) (data_path : Option String) :
    Registries × DownloadEffects :=
  let remote_url := "https://github.com/sami2py/sami2py/"
  let remote_path := "blob/main/sami2py/tests/test_data/"
  let fnameNc := "sami2py_output.nc?raw=true"
  match lookupA regs.supported_tags sat_id with
  | none => (regs, ⟨[], [], [], some (PyError.keyError sat_id)⟩)
  | some inner =>
    match lookupA inner tag with
    | none => (regs, ⟨[], [], [], some (PyError.keyError tag)⟩)
    | some format_str =>
      match pyFormat format_str [("year", y), ("month", m), ("day", d)] with
      | Except.error k => (regs, ⟨[], [], [], some (PyError.keyError k)⟩)
      | Except.ok base =>
        match data_path with
        | none => (regs, ⟨[], [], [], some PyError.typeError⟩)
        | some dp =>
          let saved := osJoin dp base
          let remote := pyStrip '/' remote_url ++ "/" ++ pyStrip '/' remote_path
            ++ "/" ++ fnameNc
          let resp := http remote
          if resp.status_code ≠ 404 then
            (regs, ⟨[remote], [(saved, resp.content)], [], none⟩)
          else
            (regs, ⟨[remote], [], [], none⟩)

/-- Model of `sami2py.download`, threading the module registries through
explicitly (the unused `user`/`password` keywords are omitted). -/
def downloadCore (regs : Registries) (http : String → HttpResponse)
    (date_array : List PyDate) (tag sat_id : String) (data_path : Option String) :
    Registries × DownloadEffects :=
  if tag = "test" then
    match date_array with
    | [] => (regs, ⟨[], [], [], some PyError.indexError⟩)
    | date :: _ =>
      downloadTestBranch regs http date.year date.month date.day tag sat_id data_path
  else
    (regs, warnedEffects)

/-- The `sami2py.download` routine applied at the module's fixed registries. -/
def download (http : String → HttpResponse) (date_array : List PyDate)
    (tag sat_id : String) (data_path : Option String) : DownloadEffects :=
  (downloadCore initRegistries http date_array tag sat_id data_path).2

/-- Acknowledgments text set by `sami2py.init`. -/
def acknowledgmentsText : String :=
  "This work uses the SAMI2 ionosphere model written and developed by "
    ++ "the Naval Research Laboratory."

/-- References text set by `sami2py.init`. -/
def referencesText : String :=
  "Huba, J.D., G. Joyce, and J.A. Fedder, Sami2 is Another Model of the "
    ++ "Ionosphere (SAMI2): A new low‐latitude ionosphere model, J. "
    ++ "Geophys. Res., 105, Pages 23035-23053, "
    ++ "https://doi.org/10.1029/2000JA000035, 2000.\n Klenzing, J., "
    ++ "Jonathon Smith, Michael Hirsch, & Angeline G. Burrell. (2020, "
    ++ "July 17). sami2py/sami2py: Version 0.2.2 (Version v0.2.2). "
    ++ "Zenodo. http://doi.org/10.5281/zenodo.3950564"

/-- Model of `sami2py.init`: sets acknowledgment fields on the instrument meta. -/
def initCore (regs : Registries) (_self : Instrument) : Registries × Instrument :=
  (regs, { acknowledgements := acknowledgmentsText, references := referencesText })

/-- The `sami2py.load` routine with the registries threaded through (the function
body never references them). -/
def loadCore (regs : Registries) (files : String → Option Dataset)
    (fnames : List String) : Registries × Option (Dataset × Meta) :=
  (regs, load files fnames)

end sami2py

/-- Monotone non-decreasing predicate on a list of values, the spec's
reading of "monotonically non-decreasing time coordinate". -/
def nonDecr (l : List ℚ) : Prop := l.Pairwise (fun a b => a ≤ b)

/-- Unfolding equation of `lookupA` on a cons cell. -/
theorem lookupA_cons {α : Type} (k0 : String) (v0 : α) (tl : List (String × α))
    (key : String) :
    lookupA ((k0, v0) :: tl) key = if key = k0 then some v0 else lookupA tl key := rfl

/-- Replacing the value at a present key makes that value the lookup
result. -/
theorem lookupA_map_replace (k : String) (v : Var) :
    ∀ l : List (String × Var), (lookupA l k).isSome →
      lookupA (l.map (fun p => if p.1 = k then (k, v) else p)) k = some v := by
  intro l
  induction l with
  | nil => intro h; simp [lookupA] at h
  | cons hd tl ih =>
    intro h
    obtain ⟨k0, v0⟩ := hd
    rw [List.map_cons]
    by_cases hk : k0 = k
    · have he : (if (k0, v0).1 = k then (k, v) else (k0, v0)) = (k, v) := by simp [hk]
      rw [he, lookupA_cons, if_pos rfl]
    · have hk2 : ¬(k = k0) := fun e => hk e.symm
      have h2 : (lookupA tl k).isSome := by
        rw [lookupA_cons, if_neg hk2] at h; exact h
      have he : (if (k0, v0).1 = k then (k, v) else (k0, v0)) = (k0, v0) := by simp [hk]
      rw [he, lookupA_cons, if_neg hk2]
      exact ih h2

/-- Appending a binding for an absent key makes that binding the lookup
result. -/
theorem lookupA_append_last (k : String) (v : Var) :
    ∀ l : List (String × Var), lookupA l k = none →
      lookupA (l ++ [(k, v)]) k = some v := by
  intro l
  induction l with
  | nil => intro _; rw [List.nil_append, lookupA_cons, if_pos rfl]
  | cons hd tl ih =>
    intro h
    obtain ⟨k0, v0⟩ := hd
    by_cases hk : k = k0
    · rw [lookupA_cons, if_pos hk] at h
      exact absurd h (by simp)
    · rw [lookupA_cons, if_neg hk] at h
      rw [List.cons_append, lookupA_cons, if_neg hk]
      exact ih h

/-- After `data[key] = v`, looking up `key` returns `v`. -/
theorem lookupA_setVar (d : Dataset) (k : String) (v : Var) :
    lookupA (setVar d k v).vars k = some v := by
  unfold setVar
  by_cases h : (lookupA d.vars k).isSome
  · simpa [h] using lookupA_map_replace k v d.vars h
  · have h2 : lookupA d.vars k = none := Option.not_isSome_iff_eq_none.mp h
    simpa [h] using lookupA_append_last k v d.vars h2

/-- After the `ut → time` rename, looking up `time` returns the old `ut`
variable. -/
theorem lookupA_rename (ut : Var) :
    ∀ l : List (String × Var), lookupA l "ut" = some ut → lookupA l "time" = none →
      lookupA (l.map (fun p => if p.1 = "ut" then ("time", p.2) else p)) "time" = some ut := by
  intro l
  induction l with
  | nil => intro hu _; simp [lookupA] at hu
  | cons hd tl ih =>
    intro hu ht
    obtain ⟨k0, v0⟩ := hd
    rw [List.map_cons]
    by_cases h1 : ("ut" : String) = k0
    · rw [lookupA_cons, if_pos h1] at hu
      have hv : v0 = ut := by exact Option.some_inj.mp hu
      have he : (if (k0, v0).1 = "ut" then ("time", (k0, v0).2) else (k0, v0))
          = ("time", v0) := by simp [h1.symm]
      rw [he, hv, lookupA_cons, if_pos rfl]
    · have hk : ¬(k0 = "ut") := fun e => h1 e.symm
      rw [lookupA_cons, if_neg h1] at hu
      by_cases h2 : ("time" : String) = k0
      · rw [lookupA_cons, if_pos h2] at ht
        exact absurd ht (by simp)
      · rw [lookupA_cons, if_neg h2] at ht
        have he : (if (k0, v0).1 = "ut" then ("time", (k0, v0).2) else (k0, v0))
            = (k0, v0) := by simp [hk]
        rw [he, lookupA_cons, if_neg h2]
        exact ih hu ht

/-- A successful `rename({'ut': 'time'})` characterized: `ut` was
present, `time` was absent, and the renamed variable list results. -/
theorem renameUtToTime_some (d d1 : Dataset) (h : sami2py.renameUtToTime d = some d1) :
    (∃ ut, lookupA d.vars "ut" = some ut) ∧ lookupA d.vars "time" = none ∧
      d1 = { d with vars := d.vars.map (fun p => if p.1 = "ut" then ("time", p.2) else p) } := by
  unfold sami2py.renameUtToTime at h
  by_cases hc : ((lookupA d.vars "ut").isSome && (lookupA d.vars "time").isNone) = true
  · obtain ⟨hc1, hc2⟩ := Bool.and_eq_true_iff.mp hc
    refine ⟨?_, ?_, ?_⟩
    · exact Option.isSome_iff_exists.mp hc1
    · exact Option.isNone_iff_eq_none.mp hc2
    · rw [if_pos hc] at h
      exact (Option.some_inj.mp h).symm
  · rw [if_neg hc] at h
    exact absurd h (by simp)

/-- A successful `sami2py.load` characterized by its intermediate
steps. -/
theorem sami2py_load_some (files : String → Option Dataset) (f : String)
    (rest : List String) (r : Dataset × sami2py.Meta)
    (h : sami2py.load files (f :: rest) = some r) :
    ∃ data0 data1 oa, files f = some data0 ∧
      sami2py.renameUtToTime data0 = some data1 ∧
      sami2py.setattrPairs (data1.attrs.map Prod.fst) = some oa ∧
      r = ({ data1 with attrs := [] },
        ⟨oa, data1.vars.map (fun p => (p.1, p.2.attrs))⟩) := by
  cases hf : files f with
  | none => simp [sami2py.load, hf] at h
  | some data0 =>
    cases hr : sami2py.renameUtToTime data0 with
    | none => simp [sami2py.load, hf, hr] at h
    | some data1 =>
      cases hs : sami2py.setattrPairs (data1.attrs.map Prod.fst) with
      | none => simp [sami2py.load, hf, hr, hs] at h
      | some oa =>
        refine ⟨data0, data1, oa, rfl, hr, hs, ?_⟩
        have h2 : sami2py.load files (f :: rest)
            = some ({ data1 with attrs := [] },
              ⟨oa, data1.vars.map (fun p => (p.1, p.2.attrs))⟩) := by
          simp [sami2py.load, hf, hr, hs]
        rw [h2] at h
        exact (Option.some_inj.mp h).symm

/-- Truncation toward zero is monotone. -/
theorem truncQ_mono {a b : ℚ} (h : a ≤ b) : truncQ a ≤ truncQ b := by
  unfold truncQ
  by_cases ha : (0 : ℚ) ≤ a
  · have hb : (0 : ℚ) ≤ b := le_trans ha h
    simpa [ha, hb] using Int.floor_le_floor h
  · by_cases hb : (0 : ℚ) ≤ b
    · have h1 : ⌈a⌉ ≤ 0 := Int.ceil_le.mpr (by exact_mod_cast le_of_not_le ha)
      have h2 : (0 : ℤ) ≤ ⌊b⌋ := Int.le_floor.mpr (by exact_mod_cast hb)
      simpa [ha, hb] using le_trans h1 h2
    · simpa [ha, hb] using Int.ceil_le_ceil h

/-- The per-entry gemini3d time synthesis is a monotone transform. -/
theorem geminiTimeVal_mono {a b : ℚ} (h : a ≤ b) :
    ((gemini3d.epoch + truncQ (a * 3600) : ℤ) : ℚ)
      ≤ ((gemini3d.epoch + truncQ (b * 3600) : ℤ) : ℚ) := by
  have hm : a * 3600 ≤ b * 3600 :=
    mul_le_mul_of_nonneg_right h (by norm_num)
  exact_mod_cast add_le_add_left (truncQ_mono hm) gemini3d.epoch

/-- A concrete HTTP oracle answering 200 with a two-byte body. -/
def http200 : String → HttpResponse := fun _ => ⟨200, [7, 7]⟩

/-- A concrete HTTP oracle answering 404. -/
def http404 : String → HttpResponse := fun _ => ⟨404, []⟩

/-- The gemini3d test date 2012-02-20T05:00:00. -/
def d2012 : PyDate := ⟨2012, 2, 20, 5, 0, 0⟩

/-- Same civil day as `d2012` at a different time of day. -/
def d2012b : PyDate := ⟨2012, 2, 20, 9, 30, 1⟩

/-- The sami2py test date 2019-01-01. -/
def d2019 : PyDate := ⟨2019, 1, 1, 0, 0, 0⟩

/-- A concrete file oracle whose single file has out-of-order `ut`
values. -/
def filesUnsorted : String → Option Dataset :=
  fun f => if f = "a.nc" then some ⟨[("ut", ⟨[2, 1], []⟩)], []⟩ else none

/-- A concrete file oracle whose single file has sorted `ut` values. -/
def filesSorted : String → Option Dataset :=
  fun f => if f = "b.nc" then some ⟨[("ut", ⟨[1, 2], []⟩)], []⟩ else none

/-- C1 is refuted as stated: a successful `sami2py.load` of a file whose
native `ut` values are out of order returns a time coordinate that is
not monotonically non-decreasing (the values are carried over verbatim
by the rename), so the "no precondition on the ordering of the native
variable's values" part of the claim fails. -/
theorem c1_counterexample :
    (sami2py.load filesUnsorted ["a.nc"]).map
        (fun r => (lookupA r.1.vars "time").map Var.values)
      = some (some [2, 1])
    ∧ ¬ nonDecr [2, 1] := by
  constructor
  · rfl
  · intro h
    rcases List.pairwise_cons.mp h with ⟨h1, _⟩
    exact absurd (h1 1 (by simp)) (by norm_num)

/-- C1 (amended): for every successful `load` in either module the time
coordinate has exactly as many entries as the native `ut` variable, and
it is monotonically non-decreasing provided the native `ut` values are
non-decreasing — the synthesis maps `ut` entrywise through a monotone
transform (gemini3d) or carries it over verbatim (sami2py). -/
theorem c1_time_axis_amended :
    (∀ pm r ut, gemini3d.loadParsed pm = some r →
      lookupA pm.1.vars "ut" = some ut →
      ∃ tv, lookupA r.1.vars "time" = some tv ∧
        tv.values.length = ut.values.length ∧
        (nonDecr ut.values → nonDecr tv.values))
  ∧ (∀ files f rest r data0 ut, files f = some data0 →
      lookupA data0.vars "ut" = some ut →
      sami2py.load files (f :: rest) = some r →
      ∃ tv, lookupA r.1.vars "time" = some tv ∧
        tv.values.length = ut.values.length ∧
        (nonDecr ut.values → nonDecr tv.values)) := by
  constructor
  · intro pm r ut hl hut
    have hl2 : gemini3d.loadParsed pm
        = some (setVar pm.1 "time"
          ⟨ut.values.map (fun v => ((gemini3d.epoch + truncQ (v * 3600) : ℤ) : ℚ)), []⟩,
          pm.2) := by
      unfold gemini3d.loadParsed
      rw [hut]
    rw [hl2] at hl
    have hr := Option.some_inj.mp hl
    refine ⟨⟨ut.values.map (fun v => ((gemini3d.epoch + truncQ (v * 3600) : ℤ) : ℚ)), []⟩,
      ?_, by simp, ?_⟩
    · rw [← hr]
      exact lookupA_setVar pm.1 "time" _
    · intro hm
      unfold nonDecr at hm ⊢
      exact List.pairwise_map.mpr (hm.imp (fun h => geminiTimeVal_mono h))
  · intro files f rest r data0 ut hf hut hl
    obtain ⟨d0, d1, oa, hf2, hrn, hs, hre⟩ := sami2py_load_some files f rest r hl
    rw [hf] at hf2
    have hd0 : d0 = data0 := Option.some_inj.mp hf2.symm
    subst hd0
    obtain ⟨⟨ut0, hu0⟩, ht, hd1⟩ := renameUtToTime_some d0 d1 hrn
    refine ⟨ut, ?_, rfl, fun hm => hm⟩
    rw [hre, hd1]
    exact lookupA_rename ut d0.vars hut ht

/-- Concrete parsed input for the amended C1 witness. -/
def c1pm : Dataset × gemini3d.MetaMap := (⟨[("ut", ⟨[1, 2], []⟩)], []⟩, [])

/-- The result `gemini3d.loadParsed` produces on `c1pm`. -/
def c1res : Dataset × gemini3d.MetaMap :=
  (gemini3d.loadParsed c1pm).getD (⟨[], []⟩, [])

/-- Witness for the amended C1 theorem at a concrete sorted input. -/
theorem c1_witness :
    gemini3d.loadParsed c1pm = some c1res ∧
    lookupA c1pm.1.vars "ut" = some ⟨[1, 2], []⟩ ∧
    ∃ tv, lookupA c1res.1.vars "time" = some tv ∧
      tv.values.length = ([1, 2] : List ℚ).length ∧
      (nonDecr [1, 2] → nonDecr tv.values) :=
  ⟨rfl, rfl, c1_time_axis_amended.1 c1pm c1res ⟨[1, 2], []⟩ rfl rfl⟩

/-- C5: the gemini3d load synthesizes entry `i` of the time coordinate
as the fixed epoch 2012-02-20T05:00:00 plus `int(ut_i * 3600)` whole
seconds, while the sami2py load synthesizes its time axis as a straight
rename of `ut` to `time`, carrying the values over verbatim. -/
theorem c5_time_synthesis :
    (∀ pm r ut, gemini3d.loadParsed pm = some r →
      lookupA pm.1.vars "ut" = some ut →
      (lookupA r.1.vars "time").map Var.values
        = some (ut.values.map (fun v => ((gemini3d.epoch + truncQ (v * 3600) : ℤ) : ℚ))))
  ∧ (∀ files f rest r data0 ut, files f = some data0 →
      lookupA data0.vars "ut" = some ut →
      sami2py.load files (f :: rest) = some r →
      (lookupA r.1.vars "time").map Var.values = some ut.values) := by
  constructor
  · intro pm r ut hl hut
    have hl2 : gemini3d.loadParsed pm
        = some (setVar pm.1 "time"
          ⟨ut.values.map (fun v => ((gemini3d.epoch + truncQ (v * 3600) : ℤ) : ℚ)), []⟩,
          pm.2) := by
      unfold gemini3d.loadParsed
      rw [hut]
    rw [hl2] at hl
    have hr := Option.some_inj.mp hl
    rw [← hr]
    rw [lookupA_setVar pm.1 "time" _]
    rfl
  · intro files f rest r data0 ut hf hut hl
    obtain ⟨d0, d1, oa, hf2, hrn, hs, hre⟩ := sami2py_load_some files f rest r hl
    rw [hf] at hf2
    have hd0 : d0 = data0 := Option.some_inj.mp hf2.symm
    subst hd0
    obtain ⟨⟨ut0, hu0⟩, ht, hd1⟩ := renameUtToTime_some d0 d1 hrn
    rw [hre, hd1]
    rw [lookupA_rename ut d0.vars hut ht]
    rfl

/-- Witness for C5 at concrete inputs for both modules. -/
theorem c5_witness :
    gemini3d.loadParsed c1pm = some c1res ∧
    lookupA c1pm.1.vars "ut" = some ⟨[1, 2], []⟩ ∧
    (lookupA c1res.1.vars "time").map Var.values
      = some (([1, 2] : List ℚ).map
        (fun v => ((gemini3d.epoch + truncQ (v * 3600) : ℤ) : ℚ))) :=
  ⟨rfl, rfl, c5_time_synthesis.1 c1pm c1res ⟨[1, 2], []⟩ rfl rfl⟩

/-- C9: the result of `sami2py.load` depends only on the first element
of `fnames` — any two calls agreeing on element 0 return identical
`(data, meta)` results, every later filename being ignored — and a call
with an empty `fnames` list fails (the `fnames[0]` IndexError, modelled
as `none`) rather than returning a dataset. -/
theorem c9_first_file_only :
    (∀ (files : String → Option Dataset) (f : String) (rest rest2 : List String),
       sami2py.load files (f :: rest) = sami2py.load files (f :: rest2))
  ∧ (∀ files : String → Option Dataset, sami2py.load files [] = none) :=
  ⟨fun _ _ _ _ => rfl, fun _ => rfl⟩

/-- An `inst_id` absent from the gemini3d `supported_tags` registry makes
the test branch raise `KeyError` before any request. -/
theorem gemini3d_branch_lookup_none (regs : Registries) (http : String → HttpResponse)
    (y m d : Int) (tag inst_id : String) (dp : Option String)
    (h : lookupA regs.supported_tags inst_id = none) :
    gemini3d.downloadTestBranch regs http y m d tag inst_id dp
      = (regs, ⟨[], [], [], some (PyError.keyError inst_id)⟩) := by
  unfold gemini3d.downloadTestBranch
  rw [h]

/-- A `sat_id` absent from the sami2py `supported_tags` registry makes
the test branch raise `KeyError` before any request. -/
theorem sami2py_branch_lookup_none (regs : Registries) (http : String → HttpResponse)
    (y m d : Int) (tag sat_id : String) (dp : Option String)
    (h : lookupA regs.supported_tags sat_id = none) :
    sami2py.downloadTestBranch regs http y m d tag sat_id dp
      = (regs, ⟨[], [], [], some (PyError.keyError sat_id)⟩) := by
  unfold sami2py.downloadTestBranch
  rw [h]

/-- A non-empty string key is not found in a registry keyed by the empty
string only. -/
theorem lookupA_single_empty_none {α : Type} (v : α) (key : String)
    (h : key ≠ "") : lookupA [("", v)] key = none := by
  rw [lookupA_cons, if_neg h]
  rfl

/-- Both download routines warn and return normally on any non-test
tag. -/
theorem download_non_test (http : String → HttpResponse)
    (dates : List PyDate) (tag inst_id sat_id : String) (dp dp2 : Option String)
    (h : tag ≠ "test") :
    gemini3d.download http dates tag inst_id dp = warnedEffects
    ∧ sami2py.download http dates tag sat_id dp2 = warnedEffects := by
  constructor
  · unfold gemini3d.download gemini3d.downloadCore
    rw [if_neg h]
  · unfold sami2py.download sami2py.downloadCore
    rw [if_neg h]

/-- C2: a `download` call whose tag is not `test` issues no HTTP
request, writes no file, emits the warning, and returns normally, in
both modules. -/
theorem c2_non_test_download (http : String → HttpResponse)
    (dates : List PyDate) (tag inst_id sat_id : String) (dp dp2 : Option String)
    (h : tag ≠ "test") :
    gemini3d.download http dates tag inst_id dp = warnedEffects
    ∧ sami2py.download http dates tag sat_id dp2 = warnedEffects :=
  download_non_test http dates tag inst_id sat_id dp dp2 h

/-- Witness for C2 with the default empty tag. -/
theorem c2_witness :
    ("" : String) ≠ "test"
    ∧ (gemini3d.download http200 [d2012] "" "" (some "/tmp") = warnedEffects
       ∧ sami2py.download http200 [d2012] "" "" (some "/tmp") = warnedEffects) :=
  ⟨by decide,
   c2_non_test_download http200 [d2012] "" "" "" (some "/tmp") (some "/tmp") (by decide)⟩

/-- C3 (code bug): with `tag="test"`, the registered `inst_id` and a
usable `data_path`, `gemini3d.download` raises `KeyError` while applying
`str.format` to the module's filename template — the pysat-style field
`hour*3600 + minute*60 + second` is not among the supplied keywords —
before any HTTP request, so neither claimed outcome (write on success,
silent skip on 404) can ever occur; `sami2py.download`, whose template
has date fields only, behaves exactly as the claim describes. -/
theorem c3_gemini_format_keyerror :
    gemini3d.download http200 [d2012] "test" "" (some "/tmp")
      = ⟨[], [], [], some (PyError.keyError "hour*3600 + minute*60 + second")⟩
    ∧ sami2py.download http200 [d2019] "test" "" (some "/tmp")
      = ⟨["https://github.com/sami2py/sami2py/blob/main/sami2py/tests/test_data/sami2py_output.nc?raw=true"],
         [("/tmp/sami2py_output_2019-01-01.nc", [7, 7])], [], none⟩
    ∧ sami2py.download http404 [d2019] "test" "" (some "/tmp")
      = ⟨["https://github.com/sami2py/sami2py/blob/main/sami2py/tests/test_data/sami2py_output.nc?raw=true"],
         [], [], none⟩ :=
  ⟨rfl, rfl, rfl⟩

/-- C4 is refuted as stated: the unsupported combination
`tag="test"`, `sat_id="zz"` makes `sami2py.download` raise `KeyError`
with no warning instead of warning and returning normally. -/
theorem c4_counterexample :
    sami2py.download http200 [d2019] "test" "zz" (some "/tmp")
      = ⟨[], [], [], some (PyError.keyError "zz")⟩ := rfl

/-- C4 (amended): a `download` call whose tag is not `test` (whether or
not the combination is registered) emits a non-fatal warning and returns
normally; a call with `tag="test"`, a non-empty `date_array` and an
inst_id / sat_id absent from the supported-tags registry instead raises
`KeyError` without warning. -/
theorem c4_unsupported_combo_amended :
    (∀ http dates tag inst_id sat_id dp dp2, tag ≠ "test" →
       gemini3d.download http dates tag inst_id dp = warnedEffects
       ∧ sami2py.download http dates tag sat_id dp2 = warnedEffects)
  ∧ (∀ (http : String → HttpResponse) (d : PyDate) rest inst_id dp,
       lookupA gemini3d.supported_tags inst_id = none →
       gemini3d.download http (d :: rest) "test" inst_id dp
         = ⟨[], [], [], some (PyError.keyError inst_id)⟩)
  ∧ (∀ (http : String → HttpResponse) (d : PyDate) rest sat_id dp,
       lookupA sami2py.supported_tags sat_id = none →
       sami2py.download http (d :: rest) "test" sat_id dp
         = ⟨[], [], [], some (PyError.keyError sat_id)⟩) := by
  refine ⟨?_, ?_, ?_⟩
  · intro http dates tag inst_id sat_id dp dp2 h
    exact download_non_test http dates tag inst_id sat_id dp dp2 h
  · intro http d rest inst_id dp h
    have e : gemini3d.download http (d :: rest) "test" inst_id dp
        = (gemini3d.downloadTestBranch gemini3d.initRegistries http
            d.year d.month d.day "test" inst_id dp).2 := rfl
    rw [e, gemini3d_branch_lookup_none gemini3d.initRegistries http
      d.year d.month d.day "test" inst_id dp h]
  · intro http d rest sat_id dp h
    have e : sami2py.download http (d :: rest) "test" sat_id dp
        = (sami2py.downloadTestBranch sami2py.initRegistries http
            d.year d.month d.day "test" sat_id dp).2 := rfl
    rw [e, sami2py_branch_lookup_none sami2py.initRegistries http
      d.year d.month d.day "test" sat_id dp h]

/-- Witness for the amended C4 theorem at concrete inputs. -/
theorem c4_witness :
    ("x" : String) ≠ "test"
    ∧ lookupA sami2py.supported_tags "zz" = none
    ∧ (gemini3d.download http200 [d2019] "x" "" (some "/tmp") = warnedEffects
       ∧ sami2py.download http200 [d2019] "x" "" (some "/tmp") = warnedEffects)
    ∧ sami2py.download http200 [d2019] "test" "zz" (some "/tmp")
        = ⟨[], [], [], some (PyError.keyError "zz")⟩ :=
  ⟨by decide, rfl,
   c4_unsupported_combo_amended.1 http200 [d2019] "x" "" "" (some "/tmp") (some "/tmp")
     (by decide),
   c4_unsupported_combo_amended.2.2 http200 d2019 [] "zz" (some "/tmp") rfl⟩

/-- The URL `sami2py.download` requests for the test file. -/
def samiRemote : String :=
  "https://github.com/sami2py/sami2py/blob/main/sami2py/tests/test_data/sami2py_output.nc?raw=true"

/-- The filename `sami2py.download` saves under: the module template
formatted with a date's year, month and day. -/
def samiBase (y m d : Int) : String :=
  match pyFormat sami2py.fname [("year", y), ("month", m), ("day", d)] with
  | Except.ok b => b
  | Except.error _ => ""

/-- The local path `download` computes for the file it saves: the
module's filename template for `(inst_id, tag)`, formatted with the
year, month and day of the first date, joined onto the data path. -/
def savedFname (regs : Registries) (inst_id tag : String) (d : PyDate)
    (dp : Option String) : Option String :=
  match dp with
  | none => none
  | some p =>
    (lookupA regs.supported_tags inst_id).bind (fun inner =>
      (lookupA inner tag).bind (fun t =>
        (pyFormat t [("year", d.year), ("month", d.month), ("day", d.day)]).toOption.map
          (fun base => osJoin p base)))

/-- On the fully supported path, `sami2py.download` reduces to a single
conditional on the HTTP status of its one request. -/
theorem sami2py_download_test_ok (http : String → HttpResponse) (d : PyDate)
    (rest : List PyDate) (p0 : String) :
    sami2py.download http (d :: rest) "test" "" (some p0)
      = (if (http samiRemote).status_code ≠ 404
         then (sami2py.initRegistries,
           (⟨[samiRemote],
             [(osJoin p0 (samiBase d.year d.month d.day), (http samiRemote).content)],
             [], none⟩ : DownloadEffects))
         else (sami2py.initRegistries,
           (⟨[samiRemote], [], [], none⟩ : DownloadEffects))).2 := rfl

/-- Lemma: `gemini3d.download` never issues an HTTP request: every branch of
the routine — warning, IndexError, missing registry key, and the
`str.format` KeyError on the module's pysat-style template — returns
before the request is made. -/
theorem gemini3d_download_no_get (http : String → HttpResponse)
    (dates : List PyDate) (tag inst_id : String) (dp : Option String) :
    (gemini3d.download http dates tag inst_id dp).gets = [] := by
  by_cases h : tag = "test"
  · subst h
    cases dates with
    | nil => rfl
    | cons d rest =>
      by_cases hi : inst_id = ""
      · subst hi; rfl
      · have hnone : lookupA gemini3d.supported_tags inst_id = none :=
          lookupA_single_empty_none _ inst_id hi
        have e : gemini3d.download http (d :: rest) "test" inst_id dp
            = (gemini3d.downloadTestBranch gemini3d.initRegistries http
                d.year d.month d.day "test" inst_id dp).2 := rfl
        rw [e, gemini3d_branch_lookup_none gemini3d.initRegistries http
          d.year d.month d.day "test" inst_id dp hnone]
  · rw [(download_non_test http dates tag inst_id inst_id dp dp h).1]
    rfl

/-- C6: every `download` call performs at most one HTTP GET; a GET
happens only when the tag check (`tag == "test"`) succeeds; and when the
GET occurs and is not answered 404 the response body is written verbatim
to the path computed from the module's filename template and the first
date (for gemini3d the filename formatting raises before the request, so
no GET ever occurs and the conditions hold vacuously). -/
theorem c6_single_guarded_get :
    (∀ (http : String → HttpResponse) dates tag inst_id dp,
       (gemini3d.download http dates tag inst_id dp).gets.length ≤ 1
       ∧ ((gemini3d.download http dates tag inst_id dp).gets ≠ [] → tag = "test")
       ∧ (∀ u, (gemini3d.download http dates tag inst_id dp).gets = [u] →
            (http u).status_code ≠ 404 →
            ∃ d0 rest p, dates = d0 :: rest
              ∧ savedFname gemini3d.initRegistries inst_id tag d0 dp = some p
              ∧ (gemini3d.download http dates tag inst_id dp).writes
                  = [(p, (http u).content)]))
  ∧ (∀ (http : String → HttpResponse) dates tag sat_id dp,
       (sami2py.download http dates tag sat_id dp).gets.length ≤ 1
       ∧ ((sami2py.download http dates tag sat_id dp).gets ≠ [] → tag = "test")
       ∧ (∀ u, (sami2py.download http dates tag sat_id dp).gets = [u] →
            (http u).status_code ≠ 404 →
            ∃ d0 rest p, dates = d0 :: rest
              ∧ savedFname sami2py.initRegistries sat_id tag d0 dp = some p
              ∧ (sami2py.download http dates tag sat_id dp).writes
                  = [(p, (http u).content)])) := by
  constructor
  · intro http dates tag inst_id dp
    have hg := gemini3d_download_no_get http dates tag inst_id dp
    refine ⟨by rw [hg]; simp, fun hne => absurd hg hne, ?_⟩
    intro u hu
    rw [hg] at hu
    simp at hu
  · intro http dates tag sat_id dp
    by_cases htag : tag = "test"
    · subst htag
      cases dates with
      | nil =>
        have hE : sami2py.download http [] "test" sat_id dp
            = ⟨[], [], [], some PyError.indexError⟩ := rfl
        rw [hE]
        refine ⟨by simp, by simp, ?_⟩
        intro u hu
        simp at hu
      | cons d rest =>
        by_cases hsat : sat_id = ""
        · subst hsat
          cases dp with
          | none =>
            have hE : sami2py.download http (d :: rest) "test" "" none
                = ⟨[], [], [], some PyError.typeError⟩ := rfl
            rw [hE]
            refine ⟨by simp, by simp, ?_⟩
            intro u hu
            simp at hu
          | some p0 =>
            rw [sami2py_download_test_ok http d rest p0]
            by_cases hst : (http samiRemote).status_code ≠ 404
            · rw [if_pos hst]
              refine ⟨by simp, fun _ => rfl, ?_⟩
              intro u hu hnf
              have hu2 : samiRemote = u := by simpa using hu
              subst hu2
              exact ⟨d, rest, osJoin p0 (samiBase d.year d.month d.day), rfl, rfl, rfl⟩
            · rw [if_neg hst]
              refine ⟨by simp, fun _ => rfl, ?_⟩
              intro u hu hnf
              have hu2 : samiRemote = u := by simpa using hu
              subst hu2
              exact absurd hnf hst
        · have hnone : lookupA sami2py.supported_tags sat_id = none :=
            lookupA_single_empty_none _ sat_id hsat
          have e : sami2py.download http (d :: rest) "test" sat_id dp
              = (sami2py.downloadTestBranch sami2py.initRegistries http
                  d.year d.month d.day "test" sat_id dp).2 := rfl
          rw [e, sami2py_branch_lookup_none sami2py.initRegistries http
            d.year d.month d.day "test" sat_id dp hnone]
          refine ⟨by simp, by simp, ?_⟩
          intro u hu
          simp at hu
    · rw [(download_non_test http dates tag "" sat_id dp dp htag).2]
      refine ⟨by simp [warnedEffects], fun hne => absurd rfl hne, ?_⟩
      intro u hu
      simp [warnedEffects] at hu

/-- Witness for C6: a concrete successful sami2py test download. -/
theorem c6_witness :
    (sami2py.download http200 [d2019] "test" "" (some "/tmp")).gets = [samiRemote]
    ∧ (http200 samiRemote).status_code ≠ 404
    ∧ ∃ d0 rest p, ([d2019] : List PyDate) = d0 :: rest
        ∧ savedFname sami2py.initRegistries "" "test" d0 (some "/tmp") = some p
        ∧ (sami2py.download http200 [d2019] "test" "" (some "/tmp")).writes
            = [(p, (http200 samiRemote).content)] :=
  ⟨rfl, by decide,
   (c6_single_guarded_get.2 http200 [d2019] "test" "" (some "/tmp")).2.2 samiRemote rfl
     (by decide)⟩

/-- Concrete parsed input for the C7 counterexample: the parser returns
one variable `ut` and one matching metadata entry. -/
def c7pm : Dataset × gemini3d.MetaMap := (⟨[("ut", ⟨[1], []⟩)], []⟩, [("ut", [])])

/-- C7 is refuted as stated for gemini3d: on a parsed file whose
metadata covers exactly the file's variables, the returned dataset
contains the synthesized `time` variable but the returned metadata still
has an entry for `ut` only — not one entry per dataset variable. -/
theorem c7_counterexample :
    (gemini3d.loadParsed c7pm).map (fun r => (r.1.vars.map Prod.fst, r.2.map Prod.fst))
      = some (["ut", "time"], ["ut"])
    ∧ ¬ (("time" : String) ∈ (["ut"] : List String)) :=
  ⟨rfl, by simp⟩

/-- C7 (amended): for sami2py the returned metadata maps each variable
of the returned (renamed) dataset to exactly that variable's attribute
mapping, one entry per variable; for gemini3d the external parser's
metadata is returned unchanged, so the synthesized `time` variable gains
no metadata entry of its own. -/
theorem c7_metadata_amended :
    (∀ files fnames r, sami2py.load files fnames = some r →
       r.2.varMeta = r.1.vars.map (fun p => (p.1, p.2.attrs)))
  ∧ (∀ pm r, gemini3d.loadParsed pm = some r → r.2 = pm.2) := by
  constructor
  · intro files fnames r h
    cases fnames with
    | nil => exact absurd h (by simp [sami2py.load])
    | cons f rest =>
      obtain ⟨d0, d1, oa, hf, hrn, hs, hre⟩ := sami2py_load_some files f rest r h
      rw [hre]
  · intro pm r h
    cases hu : lookupA pm.1.vars "ut" with
    | none =>
      unfold gemini3d.loadParsed at h
      rw [hu] at h
      exact absurd h (by simp)
    | some ut =>
      have hl2 : gemini3d.loadParsed pm
          = some (setVar pm.1 "time"
            ⟨ut.values.map (fun v => ((gemini3d.epoch + truncQ (v * 3600) : ℤ) : ℚ)), []⟩,
            pm.2) := by
        unfold gemini3d.loadParsed
        rw [hu]
      rw [hl2] at h
      rw [← Option.some_inj.mp h]

/-- The result `sami2py.load` produces on the sorted concrete oracle. -/
def c7res : Dataset × sami2py.Meta :=
  (sami2py.load filesSorted ["b.nc"]).getD (⟨[], []⟩, ⟨[], []⟩)

/-- Witness for the amended C7 theorem at concrete inputs for both
modules. -/
theorem c7_witness :
    sami2py.load filesSorted ["b.nc"] = some c7res
    ∧ c7res.2.varMeta = c7res.1.vars.map (fun p => (p.1, p.2.attrs))
    ∧ gemini3d.loadParsed c7pm = some ((gemini3d.loadParsed c7pm).getD (⟨[], []⟩, []))
    ∧ ((gemini3d.loadParsed c7pm).getD (⟨[], []⟩, [])).2 = c7pm.2 :=
  ⟨rfl, c7_metadata_amended.1 filesSorted ["b.nc"] c7res rfl,
   rfl, c7_metadata_amended.2 c7pm ((gemini3d.loadParsed c7pm).getD (⟨[], []⟩, [])) rfl⟩

/-- The gemini3d test branch leaves the registries untouched. -/
theorem gemini3d_branch_fst (regs : Registries) (http : String → HttpResponse)
    (y m d : Int) (tag inst_id : String) (dp : Option String) :
    (gemini3d.downloadTestBranch regs http y m d tag inst_id dp).1 = regs := by
  unfold gemini3d.downloadTestBranch
  repeat' split
  all_goals try rfl
  all_goals (dsimp only; split <;> rfl)

/-- The sami2py test branch leaves the registries untouched. -/
theorem sami2py_branch_fst (regs : Registries) (http : String → HttpResponse)
    (y m d : Int) (tag sat_id : String) (dp : Option String) :
    (sami2py.downloadTestBranch regs http y m d tag sat_id dp).1 = regs := by
  unfold sami2py.downloadTestBranch
  repeat' split
  all_goals try rfl
  all_goals (dsimp only; split <;> rfl)

/-- C8: the module-level registries (`tags`, `inst_ids` / `sat_ids`,
`supported_tags`) are fixed at module load time and are not mutated by
any plugin operation: threading them through `download`, `load`, `init`,
`clean` and the `list_files` binding, in both modules, returns them
unchanged for all inputs. -/
theorem c8_registries_immutable :
    (∀ regs http dates tag inst_id dp,
       (gemini3d.downloadCore regs http dates tag inst_id dp).1 = regs)
  ∧ (∀ regs http dates tag sat_id dp,
       (sami2py.downloadCore regs http dates tag sat_id dp).1 = regs)
  ∧ (∀ regs p fnames, (gemini3d.loadCore regs p fnames).1 = regs)
  ∧ (∀ regs files fnames, (sami2py.loadCore regs files fnames).1 = regs)
  ∧ (∀ regs s, (gemini3d.initCore regs s).1 = regs)
  ∧ (∀ regs s, (sami2py.initCore regs s).1 = regs)
  ∧ (∀ regs s, (gemini3d.cleanCore regs s).1 = regs)
  ∧ (∀ regs inst_id tag, (listFilesCore regs inst_id tag).1 = regs) := by
  refine ⟨?_, ?_, fun _ _ _ => rfl, fun _ _ _ => rfl, fun _ _ => rfl,
    fun _ _ => rfl, fun _ _ => rfl, fun _ _ _ => rfl⟩
  · intro regs http dates tag inst_id dp
    unfold gemini3d.downloadCore
    split
    · split
      · rfl
      · exact gemini3d_branch_fst regs http _ _ _ tag inst_id dp
    · rfl
  · intro regs http dates tag sat_id dp
    unfold sami2py.downloadCore
    split
    · split
      · rfl
      · exact sami2py_branch_fst regs http _ _ _ tag sat_id dp
    · rfl

/-- C10: `download` with `tag="test"` requires a non-empty `date_array`
and a usable `data_path`: an empty `date_array` fails by indexing
(IndexError; no warning, no write, no normal completion) in both
modules; the result depends only on the first date — later dates are
ignored — and only through its year, month and day fields; and
`sami2py.download` with `data_path=None` raises `TypeError` rather than
completing. -/
theorem c10_download_preconditions :
    (∀ (http : String → HttpResponse) inst_id dp,
       gemini3d.download http [] "test" inst_id dp
         = ⟨[], [], [], some PyError.indexError⟩)
  ∧ (∀ (http : String → HttpResponse) sat_id dp,
       sami2py.download http [] "test" sat_id dp
         = ⟨[], [], [], some PyError.indexError⟩)
  ∧ (∀ (http : String → HttpResponse) (d : PyDate) rest rest2 tag inst_id dp,
       gemini3d.download http (d :: rest) tag inst_id dp
         = gemini3d.download http (d :: rest2) tag inst_id dp)
  ∧ (∀ (http : String → HttpResponse) (d : PyDate) rest rest2 tag sat_id dp,
       sami2py.download http (d :: rest) tag sat_id dp
         = sami2py.download http (d :: rest2) tag sat_id dp)
  ∧ (∀ (http : String → HttpResponse) (d d2 : PyDate) rest tag inst_id dp,
       d.year = d2.year → d.month = d2.month → d.day = d2.day →
       gemini3d.download http (d :: rest) tag inst_id dp
         = gemini3d.download http (d2 :: rest) tag inst_id dp)
  ∧ (∀ (http : String → HttpResponse) (d d2 : PyDate) rest tag sat_id dp,
       d.year = d2.year → d.month = d2.month → d.day = d2.day →
       sami2py.download http (d :: rest) tag sat_id dp
         = sami2py.download http (d2 :: rest) tag sat_id dp)
  ∧ (∀ (http : String → HttpResponse) (d : PyDate) rest,
       sami2py.download http (d :: rest) "test" "" none
         = ⟨[], [], [], some PyError.typeError⟩) := by
  refine ⟨fun _ _ _ => rfl, fun _ _ _ => rfl, ?_, ?_, ?_, ?_, fun _ _ _ => rfl⟩
  · intro http d rest rest2 tag inst_id dp
    by_cases h : tag = "test"
    · subst h; rfl
    · unfold gemini3d.download gemini3d.downloadCore
      rw [if_neg h]
      try rw [if_neg h]
  · intro http d rest rest2 tag sat_id dp
    by_cases h : tag = "test"
    · subst h; rfl
    · unfold sami2py.download sami2py.downloadCore
      rw [if_neg h]
      try rw [if_neg h]
  · intro http d d2 rest tag inst_id dp h1 h2 h3
    by_cases h : tag = "test"
    · subst h
      show (gemini3d.downloadTestBranch gemini3d.initRegistries http
          d.year d.month d.day "test" inst_id dp).2
        = (gemini3d.downloadTestBranch gemini3d.initRegistries http
          d2.year d2.month d2.day "test" inst_id dp).2
      rw [h1, h2, h3]
    · unfold gemini3d.download gemini3d.downloadCore
      rw [if_neg h]
      try rw [if_neg h]
  · intro http d d2 rest tag sat_id dp h1 h2 h3
    by_cases h : tag = "test"
    · subst h
      show (sami2py.downloadTestBranch sami2py.initRegistries http
          d.year d.month d.day "test" sat_id dp).2
        = (sami2py.downloadTestBranch sami2py.initRegistries http
          d2.year d2.month d2.day "test" sat_id dp).2
      rw [h1, h2, h3]
    · unfold sami2py.download sami2py.downloadCore
      rw [if_neg h]
      try rw [if_neg h]

/-- Witness for C10: the same civil day at different times of day gives
the identical download result. -/
theorem c10_witness :
    d2012.year = d2012b.year ∧ d2012.month = d2012b.month ∧ d2012.day = d2012b.day
    ∧ gemini3d.download http200 [d2012] "test" "" (some "/tmp")
        = gemini3d.download http200 [d2012b] "test" "" (some "/tmp") :=
  ⟨rfl, rfl, rfl,
   c10_download_preconditions.2.2.2.2.1 http200 d2012 d2012b [] "test" "" (some "/tmp")
     rfl rfl rfl⟩
